import Mathlib

/-!
Verification of the shared directive language of the `ramble` repository
(`lib/ramble/ramble/language/shared_language.py`).

The directives are Python closures mutating an object's attribute
containers.  We embed them shallowly:

* a Python value is a `PyVal` (string, int, bool, None, list, dict);
  a Python `dict` is an insertion-ordered association list with unique
  keys, embedded as `List (String × PyVal)`;
* an object is a record of its `name`, its `_builtin_name` format
  template and its attribute mapping;
* a directive's `_execute_*` closure becomes a function
  `... → RObject → Except PyErr RObject`; raising an exception (or
  `tty.die`) becomes `Except.error`;
* `fnmatch.fnmatch` is embedded as a shell-glob matcher over the
  characters of the strings (`*`, `?`, `[...]` classes with ranges and
  `!` negation), without case folding (POSIX `os.path.normcase` is the
  identity);
* `deepcopy` is the identity on pure values.
-/

set_option autoImplicit false

/-- Runtime type tags of the Python values we model (`type(v)`). -/
inductive PyType where
  | str
  | int
  | bool
  | none
  | list
  | dict
deriving DecidableEq, Repr

/-- A Python value: strings, ints, bools, None, lists and (insertion
ordered) dicts with string keys. -/
inductive PyVal where
  | str : String → PyVal
  | int : Int → PyVal
  | bool : Bool → PyVal
  | none : PyVal
  | list : List PyVal → PyVal
  | dict : List (String × PyVal) → PyVal
deriving Repr

/-- A Python dict with string keys, as an insertion-ordered association
list. -/
abbrev PyDict := List (String × PyVal)

/-- Exceptions the directives can raise: `DirectiveError`,
`AttributeError`, `TypeError`, and `tty.die` (which aborts). -/
inductive PyErr where
  | directiveError : String → PyErr
  | attributeError : String → PyErr
  | typeError : String → PyErr
  | die : String → PyErr
deriving DecidableEq, Repr

/-- The runtime type of a value (`type(v)`). -/
def PyVal.typeOf : PyVal → PyType
  | .str _ => .str
  | .int _ => .int
  | .bool _ => .bool
  | .none => .none
  | .list _ => .list
  | .dict _ => .dict

/-- `isinstance(v, t)` on type tags: equality, plus Python's
`bool <: int` subclassing. -/
def isinstanceT (vt target : PyType) : Bool :=
  vt == target || (vt == .bool && target == .int)

/-- Python truthiness (`bool(v)`). -/
def PyVal.truthy : PyVal → Bool
  | .str s => s ≠ ""
  | .int n => n ≠ 0
  | .bool b => b
  | .none => false
  | .list l => !l.isEmpty
  | .dict d => !d.isEmpty

/-- `d[k]` lookup: first entry with key `k` (keys are unique in a real
Python dict). -/
def lookupVal (d : PyDict) (k : String) : Option PyVal :=
  match d with
  | [] => Option.none
  | p :: rest => if p.1 == k then some p.2 else lookupVal rest k

/-- `d[k] = v` assignment: replace in place if the key is present
(Python dicts keep the original insertion position), append otherwise. -/
def setVal (d : PyDict) (k : String) (v : PyVal) : PyDict :=
  if d.any (fun p => p.1 == k) then
    d.map (fun p => if p.1 == k then (k, v) else p)
  else
    d ++ [(k, v)]

/-- `d.pop(k)` / `del d[k]`: drop the entry with key `k`. -/
def removeKey (d : PyDict) (k : String) : PyDict :=
  d.filter (fun p => p.1 != k)

/-- The keys of a dict, in insertion order (`for k in d`). -/
def dictKeys (d : PyDict) : List String :=
  d.map (fun p => p.1)

/-! ## `fnmatch.fnmatch`

Shell-glob matching, embedded following `fnmatch.translate`:
`*` matches any sequence, `?` any single character, `[seq]` a character
class (with `a-b` ranges, leading `!` negation, a leading `]` taken
literally) and an unterminated `[` is a literal `[`. -/

/-- An item of a glob character class: a single character or a range. -/
inductive ClsItem where
  | single : Char → ClsItem
  | range : Char → Char → ClsItem
deriving DecidableEq, Repr

/-- A compiled glob-pattern token. -/
inductive GlobTok where
  | star : GlobTok
  | qmark : GlobTok
  | lit : Char → GlobTok
  | cls : Bool → List ClsItem → GlobTok
deriving DecidableEq, Repr

/-- Split a class body at the first `]`; `Option.none` when the class is
unterminated. -/
def splitClass : List Char → Option (List Char × List Char)
  | [] => Option.none
  | c :: rest =>
    if c = ']' then some ([], rest)
    else (splitClass rest).map (fun p => (c :: p.1, p.2))

/-- Parse a class after the opening `[`: strip an optional leading `!`
(negation); a `]` that comes first belongs to the class body. Returns
(negated, body, rest of pattern). -/
def parseCls (p : List Char) : Option (Bool × List Char × List Char) :=
  let neg := match p with
    | '!' :: _ => true
    | _ => false
  let p1 := match p with
    | '!' :: r => r
    | _ => p
  match p1 with
  | ']' :: r => (splitClass r).map (fun q => (neg, ']' :: q.1, q.2))
  | _ => (splitClass p1).map (fun q => (neg, q.1, q.2))

/-- Interpret a class body: `a-b` is a range (a `-` first or last is a
literal, as in regular expressions). -/
def clsItems : List Char → List ClsItem
  | a :: '-' :: b :: rest => ClsItem.range a b :: clsItems rest
  | c :: rest => ClsItem.single c :: clsItems rest
  | [] => []

/-- Tokenize a glob pattern; the fuel is the pattern length (each token
consumes at least one character). -/
def compileGlobAux : Nat → List Char → List GlobTok
  | 0, _ => []
  | _ + 1, [] => []
  | fuel + 1, c :: rest =>
    if c = '*' then GlobTok.star :: compileGlobAux fuel rest
    else if c = '?' then GlobTok.qmark :: compileGlobAux fuel rest
    else if c = '[' then
      match parseCls rest with
      | some (neg, body, rest2) =>
        GlobTok.cls neg (clsItems body) :: compileGlobAux fuel rest2
      | Option.none => GlobTok.lit '[' :: compileGlobAux fuel rest
    else GlobTok.lit c :: compileGlobAux fuel rest

/-- Tokenize a glob pattern. -/
def compileGlob (p : List Char) : List GlobTok :=
  compileGlobAux p.length p

/-- Does a character match one class item? -/
def matchItem (c : Char) : ClsItem → Bool
  | .single a => c == a
  | .range a b => a ≤ c && c ≤ b

/-- Does a character match a (possibly negated) class? -/
def matchCls (neg : Bool) (items : List ClsItem) (c : Char) : Bool :=
  let m := items.any (matchItem c)
  if neg then !m else m

/-- Match compiled tokens against a character list.  Each recursive call
shrinks the combined length of tokens and characters, so that quantity
(plus one) is enough fuel; the fuel keeps the recursion structural. -/
def matchToksAux : Nat → List GlobTok → List Char → Bool
  | 0, _, _ => false
  | _ + 1, [], [] => true
  | _ + 1, [], _ :: _ => false
  | fuel + 1, GlobTok.star :: ps, s =>
    matchToksAux fuel ps s ||
      (match s with
       | [] => false
       | _ :: cs => matchToksAux fuel (GlobTok.star :: ps) cs)
  | _ + 1, GlobTok.qmark :: _, [] => false
  | fuel + 1, GlobTok.qmark :: ps, _ :: cs => matchToksAux fuel ps cs
  | _ + 1, GlobTok.lit _ :: _, [] => false
  | fuel + 1, GlobTok.lit a :: ps, c :: cs => a == c && matchToksAux fuel ps cs
  | _ + 1, GlobTok.cls _ _ :: _, [] => false
  | fuel + 1, GlobTok.cls n its :: ps, c :: cs =>
    matchCls n its c && matchToksAux fuel ps cs

/-- Match compiled tokens against a character list. -/
def matchToks (ps : List GlobTok) (s : List Char) : Bool :=
  matchToksAux (ps.length + s.length + 1) ps s

/-- `fnmatch.fnmatch(name, pat)` (no case folding on POSIX). -/
def fnmatch (s pat : String) : Bool :=
  matchToks (compileGlob pat.data) s.data

example : fnmatch "hpl" "hpl" = true := by decide
example : fnmatch "intel-hpl" "*hpl" = true := by decide
example : fnmatch "hpl" "h?l" = true := by decide
example : fnmatch "hpl" "xhpl" = false := by decide
example : fnmatch "ab" "a[b-d]" = true := by decide
example : fnmatch "ab" "a[!b-d]" = false := by decide
example : fnmatch "solve_time" "*time*" = true := by decide

/-! ## The object model

A directive's `_execute_*` closure receives the object being defined.
We model the object as its `name`, its `_builtin_name` format template
and a mapping from attribute names to values (`getattr`/`setattr`/
`hasattr` act on that mapping).  Attribute containers such as
`figures_of_merit` are dict-valued attributes. -/

/-- An object under definition (application / modifier instance). -/
structure RObject where
  name : String
  builtin_name : String
  attrs : PyDict
deriving Repr

/-- `getattr(obj, a)` (as `Option`; `Option.none` means no attribute,
i.e. `hasattr` is false). -/
def RObject.getattr (o : RObject) (a : String) : Option PyVal :=
  lookupVal o.attrs a

/-- `setattr(obj, a, v)` / `obj.a = v`. -/
def RObject.setattr (o : RObject) (a : String) (v : PyVal) : RObject :=
  { o with attrs := setVal o.attrs a v }

/-! ## Simple directives -/

/-- `_execute_figure_of_merit` from the `figure_of_merit` directive:
`obj.figures_of_merit[name] = {'log_file': ..., 'regex': fom_regex,
'group_name': ..., 'units': ..., 'contexts': ...}`.  Defaults in the
source: `log_file='\x7blog_file\x7d'`, `units=''`, `contexts=[]`. -/
def _execute_figure_of_merit (name fom_regex group_name log_file units : String)
    (contexts : PyVal) (obj : RObject) : Except PyErr RObject :=
  match obj.getattr "figures_of_merit" with
  | some (PyVal.dict d) =>
    Except.ok (obj.setattr "figures_of_merit" (PyVal.dict (setVal d name (PyVal.dict
      [("log_file", PyVal.str log_file),
       ("regex", PyVal.str fom_regex),
       ("group_name", PyVal.str group_name),
       ("units", PyVal.str units),
       ("contexts", contexts)]))))
  | some _ => Except.error (PyErr.typeError "figures_of_merit does not support item assignment")
  | Option.none => Except.error (PyErr.attributeError "object has no attribute figures_of_merit")

/-- `_execute_default_compiler` from the `default_compiler` directive:
guarded by `hasattr(obj, 'uses_spack') and getattr(obj, 'uses_spack')`;
when the guard holds, sets `obj.default_compilers[name]`. -/
def _execute_default_compiler (name spack_spec : String)
    (compiler_spec compiler : PyVal) (obj : RObject) : Except PyErr RObject :=
  match obj.getattr "uses_spack" with
  | some v =>
    if v.truthy then
      match obj.getattr "default_compilers" with
      | some (PyVal.dict d) =>
        Except.ok (obj.setattr "default_compilers" (PyVal.dict (setVal d name (PyVal.dict
          [("spack_spec", PyVal.str spack_spec),
           ("compiler_spec", compiler_spec),
           ("compiler", compiler)]))))
      | some _ => Except.error (PyErr.typeError "default_compilers does not support item assignment")
      | Option.none => Except.error (PyErr.attributeError "object has no attribute default_compilers")
    else Except.ok obj
  | Option.none => Except.ok obj

/-- `_execute_software_spec` from the `software_spec` directive: same
guard as `default_compiler`, targeting `obj.software_specs[name]`. -/
def _execute_software_spec (name spack_spec : String)
    (compiler_spec compiler : PyVal) (obj : RObject) : Except PyErr RObject :=
  match obj.getattr "uses_spack" with
  | some v =>
    if v.truthy then
      match obj.getattr "software_specs" with
      | some (PyVal.dict d) =>
        Except.ok (obj.setattr "software_specs" (PyVal.dict (setVal d name (PyVal.dict
          [("spack_spec", PyVal.str spack_spec),
           ("compiler_spec", compiler_spec),
           ("compiler", compiler)]))))
      | some _ => Except.error (PyErr.typeError "software_specs does not support item assignment")
      | Option.none => Except.error (PyErr.attributeError "object has no attribute software_specs")
    else Except.ok obj
  | Option.none => Except.ok obj

/-- Modelled from the spec: `SuccessCriteria._valid_modes` lives in
`ramble/success_criteria.py`, which is not part of the sources at hand;
both the spec and the `success_criteria` directive docstring list the
valid modes as `string`, `application_function` and `fom_comparison`. -/
def valid_modes : List String :=
  ["string", "application_function", "fom_comparison"]

/-- Python `str(...)` of `valid_modes`, as interpolated by
`tty.die(f'Mode ... Valid values are \x7bvalid_modes\x7d')`. -/
def valid_modes_repr : String :=
  "['string', 'application_function', 'fom_comparison']"

/-- `_execute_success_criteria` from the `success_criteria` directive:
`tty.die` on an invalid mode (modelled as a `PyErr.die` error), else
store the six-field criterion under `name`.  Defaults in the source:
`match=None`, `file='\x7blog_file\x7d'`, `fom_name=None`,
`fom_context='null'`, `formula=None`. -/
def _execute_success_criteria (name mode : String)
    (mtch : PyVal) (file : String) (fom_name : PyVal) (fom_context : String)
    (formula : PyVal) (obj : RObject) : Except PyErr RObject :=
  if valid_modes.contains mode then
    match obj.getattr "success_criteria" with
    | some (PyVal.dict d) =>
      Except.ok (obj.setattr "success_criteria" (PyVal.dict (setVal d name (PyVal.dict
        [("mode", PyVal.str mode),
         ("match", mtch),
         ("file", PyVal.str file),
         ("fom_name", fom_name),
         ("fom_context", PyVal.str fom_context),
         ("formula", formula)]))))
    | some _ => Except.error (PyErr.typeError "success_criteria does not support item assignment")
    | Option.none => Except.error (PyErr.attributeError "object has no attribute success_criteria")
  else
    Except.error (PyErr.die ("Mode " ++ mode ++ " is not valid. Valid values are " ++ valid_modes_repr))

/-- `obj._builtin_name.format(obj_name=obj.name, name=name)`: the
templates in use contain only the fields `\x7bobj_name\x7d` and
`\x7bname\x7d`; one left-to-right pass substitutes each occurrence. -/
def formatBuiltinName (tpl : List Char) (obj_name nm : String) : String :=
  String.mk (go tpl)
where
  go : List Char → List Char
    | '\x7b' :: 'o' :: 'b' :: 'j' :: '_' :: 'n' :: 'a' :: 'm' :: 'e' :: '\x7d' :: rest =>
      obj_name.data ++ go rest
    | '\x7b' :: 'n' :: 'a' :: 'm' :: 'e' :: '\x7d' :: rest =>
      nm.data ++ go rest
    | c :: rest => c :: go rest
    | [] => []

/-- `str(supported_injection_methods)` as Python prints it. -/
def supported_injection_methods_repr : String :=
  "['prepend', 'append']"

/-- `_store_builtin` from the `register_builtin` directive: raise a
`DirectiveError` naming the object and the bad value when
`injection_method` is not `prepend`/`append`; else record the builtin
under its fully-qualified name.  Defaults in the source:
`required=True`, `injection_method='prepend'`. -/
def _store_builtin (name : String) (required : Bool) (injection_method : String)
    (obj : RObject) : Except PyErr RObject :=
  if !(["prepend", "append"].contains injection_method) then
    Except.error (PyErr.directiveError
      ("Object " ++ obj.name ++ " has an invalid injection method of "
        ++ injection_method ++ ".\nValid methods are " ++ supported_injection_methods_repr))
  else
    let builtin_name := formatBuiltinName obj.builtin_name.data obj.name name
    match obj.getattr "builtins" with
    | some (PyVal.dict d) =>
      Except.ok (obj.setattr "builtins" (PyVal.dict (setVal d builtin_name (PyVal.dict
        [("name", PyVal.str name),
         ("required", PyVal.bool required),
         ("injection_method", PyVal.str injection_method)]))))
    | some _ => Except.error (PyErr.typeError "builtins does not support item assignment")
    | Option.none => Except.error (PyErr.attributeError "object has no attribute builtins")

/-! ## Generic attribute mutators

`_remove_or_pop_item`, `remove_attr_val`, `_update_items` and
`update_attr_val` duck-type on `getattr(obj, attr_name)`.  We model the
values a container can hold: a dict (the real use; iteration yields its
keys, `pop` removes one), a list (iteration yields its elements,
`remove` drops by value; `fnmatch` on a non-string element raises
`TypeError`, as does indexing a list with a string key), a string
(iterable, but with no `remove`/`pop`, and string-keyed indexing raises
`TypeError`), and anything else (no `__iter__`).  In the loops over
glob-matched keys we process the entries positionally: dict keys are
unique, so this is the same as the source's collect-the-matched-keys
then index-each-one loop. -/

/-- The single characters of a string, as strings (`for k in s`). -/
def strChars (s : String) : List String :=
  s.data.map (fun c => String.mk [c])

/-- The list comprehension `[k for k in obj if fnmatch(k, name)]` over a
Python list: `fnmatch` raises `TypeError` at the first non-string
element. -/
def globFilterStrs : List PyVal → String → Except PyErr (List String)
  | [], _ => Except.ok []
  | PyVal.str s :: rest, pat => do
    let r ← globFilterStrs rest pat
    Except.ok (if fnmatch s pat then s :: r else r)
  | _ :: _, _ => Except.error (PyErr.typeError "expected string or bytes-like object")

/-- `l.remove(v)`: drop the first occurrence of the string `v`. -/
def removeFirstStr (l : List PyVal) (v : String) : List PyVal :=
  match l with
  | [] => []
  | PyVal.str s :: xs => if s == v then xs else PyVal.str s :: removeFirstStr xs v
  | x :: xs => x :: removeFirstStr xs v

/-- `_remove_or_pop_item(obj, message, name)`.  NOTE: the zero-match
`DirectiveError` in the source is the literal text
`"\x7bmessage\x7d[\x7bname\x7d] not found"` — the string lacks the `f`
prefix (line 367), so nothing is interpolated. -/
def _remove_or_pop_item (obj : PyVal) (message nm : String) : Except PyErr PyVal :=
  match obj with
  | PyVal.dict d =>
    let globmatched_keys := (dictKeys d).filter (fun k => fnmatch k nm)
    if globmatched_keys.length > 0 then
      Except.ok (PyVal.dict (globmatched_keys.foldl removeKey d))
    else
      Except.error (PyErr.directiveError "\x7bmessage\x7d[\x7bname\x7d] not found")
  | PyVal.list l => do
    let globmatched ← globFilterStrs l nm
    if globmatched.length > 0 then
      Except.ok (PyVal.list (globmatched.foldl removeFirstStr l))
    else
      Except.error (PyErr.directiveError "\x7bmessage\x7d[\x7bname\x7d] not found")
  | PyVal.str _ =>
    Except.error (PyErr.attributeError ("No remove or pop methods available for " ++ message))
  | _ =>
    Except.error (PyErr.attributeError (message ++ " does not contain attribute __iter__"))

/-- The `for k in globmatched_keys: _remove_or_pop_item(attr_obj[k], ...)`
loop of `_execute_remove_attr_val`, processed entry by entry. -/
def removeOuter (attr_name ks nm : String) :
    List (String × PyVal) → Except PyErr (List (String × PyVal))
  | [] => Except.ok []
  | (k, v) :: rest =>
    if fnmatch k ks then do
      let v2 ← _remove_or_pop_item v (attr_name ++ "[" ++ k ++ "]") nm
      let r ← removeOuter attr_name ks nm rest
      Except.ok ((k, v2) :: r)
    else do
      let r ← removeOuter attr_name ks nm rest
      Except.ok ((k, v) :: r)

/-- `_execute_remove_attr_val` from the `remove_attr_val(attr_name,
name, keys=None)` directive. -/
def _execute_remove_attr_val (attr_name nm : String) (keys : Option String)
    (obj : RObject) : Except PyErr RObject :=
  match obj.getattr attr_name with
  | Option.none =>
    Except.error (PyErr.attributeError ("Object does not contain attribute " ++ attr_name))
  | some attr_obj =>
    match keys with
    | some ks =>
      match attr_obj with
      | PyVal.dict d =>
        if ((dictKeys d).filter (fun k => fnmatch k ks)).length > 0 then do
          let d2 ← removeOuter attr_name ks nm d
          Except.ok (obj.setattr attr_name (PyVal.dict d2))
        else
          Except.error (PyErr.directiveError (attr_name ++ "[" ++ ks ++ "] not found"))
      | PyVal.list l => do
        let globmatched ← globFilterStrs l ks
        if globmatched.length > 0 then
          Except.error (PyErr.typeError "list indices must be integers")
        else
          Except.error (PyErr.directiveError (attr_name ++ "[" ++ ks ++ "] not found"))
      | PyVal.str s =>
        if ((strChars s).filter (fun k => fnmatch k ks)).length > 0 then
          Except.error (PyErr.typeError "string indices must be integers")
        else
          Except.error (PyErr.directiveError (attr_name ++ "[" ++ ks ++ "] not found"))
      | _ =>
        Except.error (PyErr.attributeError (attr_name ++ " does not contain attribute __iter__"))
    | Option.none => do
      let v2 ← _remove_or_pop_item attr_obj attr_name nm
      Except.ok (obj.setattr attr_name v2)

/-- The type-compatibility loop of `_update_items`: for every existing
field `(k, v)` of the entry with `k in kwargs`, require
`isinstance(kwargs[k], type(v))`. -/
def checkTypes (e kwargs : PyDict) (update_obj_name : String) : Except PyErr Unit :=
  match e with
  | [] => Except.ok ()
  | (k, v) :: rest =>
    match lookupVal kwargs k with
    | some w =>
      if isinstanceT w.typeOf v.typeOf then checkTypes rest kwargs update_obj_name
      else
        Except.error (PyErr.directiveError
          ("Replacement value type for" ++ update_obj_name
            ++ " does not match type of existing value"))
    | Option.none => checkTypes rest kwargs update_obj_name

/-- The assignment loop of `_update_items`:
`for k, v in kwargs.items(): update_obj[k] = deepcopy(v)`. -/
def applyKwargs (e kwargs : PyDict) : PyDict :=
  kwargs.foldl (fun acc p => setVal acc p.1 p.2) e

/-- The per-matched-key loop of `_update_items`, processed entry by
entry: each glob-matched entry must have `items` (be a dict), is
type-checked against `kwargs`, then updated. -/
def updateAll (message nm : String) (kwargs : PyDict) :
    PyDict → Except PyErr PyDict
  | [] => Except.ok []
  | (k, v) :: rest =>
    if fnmatch k nm then
      match v with
      | PyVal.dict e => do
        checkTypes e kwargs (message ++ "[" ++ k ++ "]")
        let r ← updateAll message nm kwargs rest
        Except.ok ((k, PyVal.dict (applyKwargs e kwargs)) :: r)
      | _ =>
        Except.error (PyErr.attributeError
          (message ++ "[" ++ k ++ "] does not contain attribute items"))
    else do
      let r ← updateAll message nm kwargs rest
      Except.ok ((k, v) :: r)

/-- `_update_items(obj_val, message, name, **kwargs)` (the caller
guarantees `len(kwargs) > 0`). -/
def _update_items (obj_val : PyVal) (message nm : String) (kwargs : PyDict) :
    Except PyErr PyVal :=
  match obj_val with
  | PyVal.dict d =>
    if (dictKeys d).any (fun k => fnmatch k nm) then
      (updateAll message nm kwargs d).map PyVal.dict
    else
      Except.error (PyErr.directiveError (message ++ "[" ++ nm ++ "] not found"))
  | PyVal.list l => do
    let globmatched ← globFilterStrs l nm
    if globmatched.length > 0 then
      Except.error (PyErr.typeError "list indices must be integers")
    else
      Except.error (PyErr.directiveError (message ++ "[" ++ nm ++ "] not found"))
  | PyVal.str s =>
    if ((strChars s).filter (fun k => fnmatch k nm)).length > 0 then
      Except.error (PyErr.typeError "string indices must be integers")
    else
      Except.error (PyErr.directiveError (message ++ "[" ++ nm ++ "] not found"))
  | _ =>
    Except.error (PyErr.attributeError (message ++ " does not contain attribute __iter__"))

/-- The `for key in globmatched_keys: _update_items(attr_obj[key], ...)`
loop of `_execute_update_attr_val`, processed entry by entry. -/
def updateOuter (attr_name ks nm : String) (kwargs : PyDict) :
    List (String × PyVal) → Except PyErr (List (String × PyVal))
  | [] => Except.ok []
  | (k, v) :: rest =>
    if fnmatch k ks then do
      let v2 ← _update_items v (attr_name ++ "[" ++ k ++ "]") nm kwargs
      let r ← updateOuter attr_name ks nm kwargs rest
      Except.ok ((k, v2) :: r)
    else do
      let r ← updateOuter attr_name ks nm kwargs rest
      Except.ok ((k, v) :: r)

/-- `_execute_update_attr_val` from the `update_attr_val(attr_name,
name, keys=None, **kwargs)` directive: `tags` and `maintainers` are
rejected first (`_excluded_attrs`), then the object must have the
attribute, then `kwargs` must be non-empty. -/
def _execute_update_attr_val (attr_name nm : String) (keys : Option String)
    (kwargs : PyDict) (obj : RObject) : Except PyErr RObject :=
  if attr_name == "tags" || attr_name == "maintainers" then
    Except.error (PyErr.directiveError
      ("Attribute " ++ attr_name ++ " cannot be updated using generic update_attribute"))
  else
    match obj.getattr attr_name with
    | Option.none =>
      Except.error (PyErr.attributeError ("Object does not contain attribute " ++ attr_name))
    | some attr_obj =>
      if kwargs.length > 0 then
        match keys with
        | some ks =>
          match attr_obj with
          | PyVal.dict d =>
            if (dictKeys d).any (fun k => fnmatch k ks) then do
              let d2 ← updateOuter attr_name ks nm kwargs d
              Except.ok (obj.setattr attr_name (PyVal.dict d2))
            else
              Except.error (PyErr.directiveError (attr_name ++ "[" ++ ks ++ "] not found"))
          | PyVal.list l => do
            let globmatched ← globFilterStrs l ks
            if globmatched.length > 0 then
              Except.error (PyErr.typeError "list indices must be integers")
            else
              Except.error (PyErr.directiveError (attr_name ++ "[" ++ ks ++ "] not found"))
          | PyVal.str s =>
            if ((strChars s).filter (fun k => fnmatch k ks)).length > 0 then
              Except.error (PyErr.typeError "string indices must be integers")
            else
              Except.error (PyErr.directiveError (attr_name ++ "[" ++ ks ++ "] not found"))
          | _ =>
            Except.error (PyErr.attributeError (attr_name ++ " does not contain attribute __iter__"))
        | Option.none => do
          let v2 ← _update_items attr_obj attr_name nm kwargs
          Except.ok (obj.setattr attr_name v2)
      else
        Except.error (PyErr.directiveError "No kwargs provided for update_attr_val")

/-! ## `maintainers` and `tags` -/

/-- Read a Python list of strings. -/
def asStrs : List PyVal → Option (List String)
  | [] => some []
  | PyVal.str s :: rest => (asStrs rest).map (fun l => s :: l)
  | _ :: _ => Option.none

/-- Insert into a strictly sorted list, skipping duplicates. -/
def insertSorted (x : String) : List String → List String
  | [] => [x]
  | y :: ys =>
    if x < y then x :: y :: ys
    else if x = y then y :: ys
    else y :: insertSorted x ys

/-- `list(sorted(set(l)))` for a list of strings: the strictly sorted
list of its distinct elements. -/
def sortedDedup (l : List String) : List String :=
  l.foldr insertSorted []

/-- `_execute_maintainer` from the `maintainers(*names)` directive:
`obj.maintainers = list(sorted(set(getattr(obj, "maintainers", []) +
list(names))))`. -/
def _execute_maintainer (names : List String) (obj : RObject) : Except PyErr RObject :=
  match obj.getattr "maintainers" with
  | Option.none =>
    Except.ok (obj.setattr "maintainers" (PyVal.list ((sortedDedup names).map PyVal.str)))
  | some (PyVal.list xs) =>
    match asStrs xs with
    | some base =>
      Except.ok (obj.setattr "maintainers"
        (PyVal.list ((sortedDedup (base ++ names)).map PyVal.str)))
    | Option.none => Except.error (PyErr.typeError "comparison unsupported in sorted")
  | some _ => Except.error (PyErr.typeError "can only concatenate list to list")

/-- `_execute_tag` from the `tags(*values)` directive: same as
`maintainers`, on the `tags` attribute. -/
def _execute_tag (values : List String) (obj : RObject) : Except PyErr RObject :=
  match obj.getattr "tags" with
  | Option.none =>
    Except.ok (obj.setattr "tags" (PyVal.list ((sortedDedup values).map PyVal.str)))
  | some (PyVal.list xs) =>
    match asStrs xs with
    | some base =>
      Except.ok (obj.setattr "tags"
        (PyVal.list ((sortedDedup (base ++ values)).map PyVal.str)))
    | Option.none => Except.error (PyErr.typeError "comparison unsupported in sorted")
  | some _ => Except.error (PyErr.typeError "can only concatenate list to list")

/-! ## Derived shapes used in the specifications -/

/-- Result of an error-free run: is the computation an error? -/
def isError (r : Except PyErr RObject) : Bool :=
  match r with
  | Except.ok _ => false
  | Except.error _ => true

/-- Is an entry value compatible with the replacements: it has `items`
(is a dict) and every existing field that `kwargs` replaces gets a value
of a matching runtime type. -/
def entryOk (kwargs : PyDict) : PyVal → Bool
  | PyVal.dict e =>
    e.all (fun q =>
      match lookupVal kwargs q.1 with
      | some w => isinstanceT w.typeOf q.2.typeOf
      | Option.none => true)
  | _ => false

/-- Every glob-matched entry of the container is update-compatible. -/
def allMatchedOk (nm : String) (kwargs : PyDict) (d : PyDict) : Bool :=
  d.all (fun p => !(fnmatch p.1 nm) || entryOk kwargs p.2)

/-- Does an entry hold an existing field whose replacement in `kwargs`
has a mismatched runtime type? -/
def entryBad (kwargs : PyDict) : PyVal → Bool
  | PyVal.dict e =>
    e.any (fun q =>
      match lookupVal kwargs q.1 with
      | some w => !(isinstanceT w.typeOf q.2.typeOf)
      | Option.none => false)
  | _ => false

/-- The updated shape of one matched entry. -/
def updSpecEntry (kwargs : PyDict) (v : PyVal) : PyVal :=
  match v with
  | PyVal.dict e => PyVal.dict (applyKwargs e kwargs)
  | v => v

/-- The updated shape of a container: matched entries get the
replacements applied, all other entries are untouched. -/
def updSpec (nm : String) (kwargs : PyDict) (d : PyDict) : PyDict :=
  d.map (fun p => if fnmatch p.1 nm then (p.1, updSpecEntry kwargs p.2) else p)

/-- A sub-container is updatable: it is a dict with at least one
glob-matched, update-compatible entry. -/
def innerOk (nm : String) (kwargs : PyDict) : PyVal → Bool
  | PyVal.dict e => (dictKeys e).any (fun k => fnmatch k nm) && allMatchedOk nm kwargs e
  | _ => false

/-- The updated shape of one matched sub-container. -/
def updSpecVal (nm : String) (kwargs : PyDict) : PyVal → PyVal
  | PyVal.dict e => PyVal.dict (updSpec nm kwargs e)
  | v => v

/-- The updated shape of a container of sub-containers. -/
def updSpecOuter (ks nm : String) (kwargs : PyDict) (d : PyDict) : PyDict :=
  d.map (fun p => if fnmatch p.1 ks then (p.1, updSpecVal nm kwargs p.2) else p)

/-- A sub-container supports removal of `nm`: a dict with at least one
glob-matched key. -/
def subRemOk (nm : String) : PyVal → Bool
  | PyVal.dict e => (dictKeys e).any (fun k => fnmatch k nm)
  | _ => false

/-- The shape of a dict after removing every glob-matched key. -/
def remSpec (nm : String) (d : PyDict) : PyDict :=
  d.filter (fun p => !(fnmatch p.1 nm))

/-- The shape of one sub-container after removal. -/
def remSpecVal (nm : String) : PyVal → PyVal
  | PyVal.dict e => PyVal.dict (remSpec nm e)
  | v => v

/-! ## Helper lemmas -/

theorem filter_length_pos_iff_any {α : Type} (f : α → Bool) (l : List α) :
    0 < (l.filter f).length ↔ l.any f = true := by
  rw [List.length_pos, Ne, List.filter_eq_nil_iff, List.any_eq_true]
  constructor
  · intro h
    by_contra hc
    push_neg at hc
    exact h (fun a ha => by simpa using hc a ha)
  · rintro ⟨a, ha, hfa⟩ h
    exact h a ha hfa

theorem foldl_removeKey_eq_filter (ks : List String) (d : PyDict) :
    ks.foldl removeKey d = d.filter (fun p => !(ks.contains p.1)) := by
  induction ks generalizing d with
  | nil => simp
  | cons k ks ih =>
    rw [List.foldl_cons, ih, removeKey, List.filter_filter]
    apply List.filter_congr
    intro p _
    rw [List.contains_cons, Bool.not_or]
    by_cases h : p.1 = k <;> simp [h, bne, Bool.and_comm]

theorem remove_matched_eq_remSpec (nm : String) (d : PyDict) :
    ((dictKeys d).filter (fun k => fnmatch k nm)).foldl removeKey d = remSpec nm d := by
  rw [foldl_removeKey_eq_filter, remSpec]
  apply List.filter_congr
  intro p hp
  have hmem : p.1 ∈ dictKeys d := List.mem_map_of_mem (fun q => q.1) hp
  by_cases h : fnmatch p.1 nm
  · simp [List.contains, List.elem_iff, List.mem_filter, hmem, h]
  · simp [List.contains, List.elem_iff, List.mem_filter, h]

theorem except_bind_ok {α β : Type} (a : α) (f : α → Except PyErr β) :
    (Except.ok a : Except PyErr α) >>= f = f a := rfl

theorem except_bind_error {α β : Type} (e : PyErr) (f : α → Except PyErr β) :
    (Except.error e : Except PyErr α) >>= f = Except.error e := rfl

theorem except_map_ok {α β : Type} (f : α → β) (a : α) :
    Except.map f (Except.ok a : Except PyErr α) = Except.ok (f a) := rfl

theorem checkTypes_eq_ok_iff (e kwargs : PyDict) (m : String) :
    checkTypes e kwargs m = Except.ok () ↔
      e.all (fun q =>
        match lookupVal kwargs q.1 with
        | some w => isinstanceT w.typeOf q.2.typeOf
        | Option.none => true) = true := by
  induction e with
  | nil => simp [checkTypes]
  | cons q rest ih =>
    obtain ⟨k, v⟩ := q
    cases hq : lookupVal kwargs k with
    | none => simp [checkTypes, hq, ih]
    | some w =>
      by_cases hi : isinstanceT w.typeOf v.typeOf = true
      · simp [checkTypes, hq, hi, ih]
      · simp [checkTypes, hq, hi, ih]

theorem updateAll_eq_ok (m nm : String) (kwargs : PyDict) (d : PyDict)
    (h : allMatchedOk nm kwargs d = true) :
    updateAll m nm kwargs d = Except.ok (updSpec nm kwargs d) := by
  induction d with
  | nil => simp [updateAll, updSpec]
  | cons p rest ih =>
    obtain ⟨k, v⟩ := p
    rw [allMatchedOk, List.all_cons, Bool.and_eq_true] at h
    obtain ⟨h1, h2⟩ := h
    have ih' := ih (by simpa [allMatchedOk] using h2)
    by_cases hf : fnmatch k nm = true
    · cases v with
      | dict e =>
        have hok : entryOk kwargs (PyVal.dict e) = true := by
          simpa [hf] using h1
        have hct : checkTypes e kwargs (m ++ "[" ++ k ++ "]") = Except.ok () :=
          (checkTypes_eq_ok_iff e kwargs (m ++ "[" ++ k ++ "]")).mpr
            (by simpa [entryOk] using hok)
        simp [updateAll, hf, hct, ih', updSpec, updSpecEntry, except_bind_ok]
      | str s => simp [hf, entryOk] at h1
      | int n => simp [hf, entryOk] at h1
      | bool b => simp [hf, entryOk] at h1
      | none => simp [hf, entryOk] at h1
      | list l => simp [hf, entryOk] at h1
    · simp [updateAll, hf, ih', updSpec, except_bind_ok]

theorem allMatchedOk_of_updateAll_eq_ok (m nm : String) (kwargs : PyDict)
    (d d' : PyDict) (h : updateAll m nm kwargs d = Except.ok d') :
    allMatchedOk nm kwargs d = true := by
  induction d generalizing d' with
  | nil => simp [allMatchedOk]
  | cons p rest ih =>
    obtain ⟨k, v⟩ := p
    rw [allMatchedOk, List.all_cons, Bool.and_eq_true]
    by_cases hf : fnmatch k nm = true
    · cases v with
      | dict e =>
        cases hct : checkTypes e kwargs (m ++ "[" ++ k ++ "]") with
        | error err => simp [updateAll, hf, hct, except_bind_error] at h
        | ok u =>
          cases hrest : updateAll m nm kwargs rest with
          | error err => simp [updateAll, hf, hct, hrest, except_bind_ok, except_bind_error] at h
          | ok r =>
            refine ⟨?_, by simpa [allMatchedOk] using ih r hrest⟩
            have : entryOk kwargs (PyVal.dict e) = true := by
              simpa [entryOk] using (checkTypes_eq_ok_iff e kwargs (m ++ "[" ++ k ++ "]")).mp (by cases u; exact hct)
            simp [hf, this]
      | str s => simp [updateAll, hf] at h
      | int n => simp [updateAll, hf] at h
      | bool b => simp [updateAll, hf] at h
      | none => simp [updateAll, hf] at h
      | list l => simp [updateAll, hf] at h
    · cases hrest : updateAll m nm kwargs rest with
      | error err => simp [updateAll, hf, hrest, except_bind_error] at h
      | ok r =>
        exact ⟨by simp [hf], by simpa [allMatchedOk] using ih r hrest⟩

theorem update_items_dict_ok (m nm : String) (kwargs : PyDict) (e : PyDict)
    (h : innerOk nm kwargs (PyVal.dict e) = true) :
    _update_items (PyVal.dict e) m nm kwargs =
      Except.ok (PyVal.dict (updSpec nm kwargs e)) := by
  rw [innerOk, Bool.and_eq_true] at h
  obtain ⟨h1, h2⟩ := h
  simp [_update_items, h1, updateAll_eq_ok m nm kwargs e h2, except_map_ok]

theorem updateOuter_eq_ok (attr ks nm : String) (kwargs : PyDict) (d : PyDict)
    (h : d.all (fun p => !(fnmatch p.1 ks) || innerOk nm kwargs p.2) = true) :
    updateOuter attr ks nm kwargs d = Except.ok (updSpecOuter ks nm kwargs d) := by
  induction d with
  | nil => simp [updateOuter, updSpecOuter]
  | cons p rest ih =>
    obtain ⟨k, v⟩ := p
    rw [List.all_cons, Bool.and_eq_true] at h
    obtain ⟨h1, h2⟩ := h
    have ih' := ih h2
    by_cases hf : fnmatch k ks = true
    · cases v with
      | dict e =>
        have hok : innerOk nm kwargs (PyVal.dict e) = true := by simpa [hf] using h1
        simp [updateOuter, hf, update_items_dict_ok (attr ++ "[" ++ k ++ "]") nm kwargs e hok,
          ih', updSpecOuter, updSpecVal, except_bind_ok]
      | str s => simp [hf, innerOk] at h1
      | int n => simp [hf, innerOk] at h1
      | bool b => simp [hf, innerOk] at h1
      | none => simp [hf, innerOk] at h1
      | list l => simp [hf, innerOk] at h1
    · simp [updateOuter, hf, ih', updSpecOuter, except_bind_ok]

theorem remove_or_pop_dict_ok (m nm : String) (e : PyDict)
    (h : (dictKeys e).any (fun k => fnmatch k nm) = true) :
    _remove_or_pop_item (PyVal.dict e) m nm = Except.ok (PyVal.dict (remSpec nm e)) := by
  have hlen : 0 < ((dictKeys e).filter (fun k => fnmatch k nm)).length :=
    (filter_length_pos_iff_any _ _).mpr h
  simp only [_remove_or_pop_item]
  rw [if_pos hlen, remove_matched_eq_remSpec]

theorem removeOuter_eq_ok (attr ks nm : String) (d : PyDict)
    (h : d.all (fun p => !(fnmatch p.1 ks) || subRemOk nm p.2) = true) :
    removeOuter attr ks nm d = Except.ok (d.map (fun p =>
      if fnmatch p.1 ks then (p.1, remSpecVal nm p.2) else p)) := by
  induction d with
  | nil => simp [removeOuter]
  | cons p rest ih =>
    obtain ⟨k, v⟩ := p
    rw [List.all_cons, Bool.and_eq_true] at h
    obtain ⟨h1, h2⟩ := h
    have ih' := ih h2
    by_cases hf : fnmatch k ks = true
    · cases v with
      | dict e =>
        have hok : subRemOk nm (PyVal.dict e) = true := by simpa [hf] using h1
        rw [subRemOk] at hok
        simp [removeOuter, hf,
          remove_or_pop_dict_ok (attr ++ "[" ++ k ++ "]") nm e hok,
          ih', remSpecVal, except_bind_ok]
      | str s => simp [hf, subRemOk] at h1
      | int n => simp [hf, subRemOk] at h1
      | bool b => simp [hf, subRemOk] at h1
      | none => simp [hf, subRemOk] at h1
      | list l => simp [hf, subRemOk] at h1
    · simp [removeOuter, hf, ih', except_bind_ok]

theorem lookupVal_map_set (d : PyDict) (k : String) (v : PyVal)
    (h : d.any (fun p => p.1 == k) = true) :
    lookupVal (d.map (fun p => if p.1 == k then (k, v) else p)) k = some v := by
  induction d with
  | nil => simp at h
  | cons p rest ih =>
    simp only [List.map_cons]
    by_cases hp : (p.1 == k) = true
    · rw [if_pos hp]
      simp [lookupVal]
    · rw [if_neg hp]
      rw [List.any_cons, Bool.or_eq_true] at h
      rcases h with h | h
      · exact absurd h hp
      · simp only [lookupVal]
        rw [if_neg hp]
        exact ih h

theorem lookupVal_append_single (d : PyDict) (k : String) (v : PyVal)
    (h : d.any (fun p => p.1 == k) = false) :
    lookupVal (d ++ [(k, v)]) k = some v := by
  induction d with
  | nil => simp [lookupVal]
  | cons p rest ih =>
    rw [List.any_cons, Bool.or_eq_false_iff] at h
    obtain ⟨h1, h2⟩ := h
    simp [lookupVal, h1, ih h2]

theorem lookupVal_setVal_self (d : PyDict) (k : String) (v : PyVal) :
    lookupVal (setVal d k v) k = some v := by
  by_cases hany : d.any (fun p => p.1 == k) = true
  · rw [setVal, if_pos hany]
    exact lookupVal_map_set d k v hany
  · have hany' : d.any (fun p => p.1 == k) = false := Bool.eq_false_iff.mpr hany
    rw [setVal, if_neg hany]
    exact lookupVal_append_single d k v hany'

theorem setVal_idem (d : PyDict) (k : String) (v : PyVal) :
    setVal (setVal d k v) k v = setVal d k v := by
  by_cases hany : d.any (fun p => p.1 == k) = true
  · have hinner : setVal d k v = d.map (fun p => if p.1 == k then (k, v) else p) := by
      rw [setVal, if_pos hany]
    have hany2 : ((d.map (fun p => if p.1 == k then (k, v) else p)).any
        (fun p => p.1 == k)) = true := by
      rw [List.any_eq_true] at hany ⊢
      obtain ⟨p, hp, hpk⟩ := hany
      refine ⟨(k, v), ?_, by simp⟩
      rw [List.mem_map]
      exact ⟨p, hp, by simp [hpk]⟩
    rw [hinner, setVal, if_pos hany2, List.map_map]
    apply List.map_congr_left
    intro p _
    by_cases hp : (p.1 == k) = true <;> simp [Function.comp, hp]
  · have hany' : (d.any fun p => p.1 == k) = false := Bool.eq_false_iff.mpr hany
    have hinner : setVal d k v = d ++ [(k, v)] := by rw [setVal, if_neg hany]
    have hany2 : ((d ++ [(k, v)]).any (fun p => p.1 == k)) = true := by simp
    rw [hinner, setVal, if_pos hany2, List.map_append]
    have hmapd : d.map (fun p => if p.1 == k then (k, v) else p) = d := by
      conv_rhs => rw [← List.map_id d]
      apply List.map_congr_left
      intro p hp
      have hpk : ¬ ((p.1 == k) = true) := by
        intro hc
        rw [List.any_eq_true] at hany
        exact hany ⟨p, hp, hc⟩
      rw [if_neg hpk]
      rfl
    rw [hmapd]
    simp

theorem mem_insertSorted (x a : String) (l : List String) :
    a ∈ insertSorted x l ↔ a = x ∨ a ∈ l := by
  induction l with
  | nil => simp [insertSorted]
  | cons y ys ih =>
    by_cases h1 : x < y
    · simp [insertSorted, h1, List.mem_cons]
    · by_cases h2 : x = y
      · subst h2
        rw [insertSorted, if_neg h1, if_pos rfl]
        simp only [List.mem_cons]
        tauto
      · simp only [insertSorted, if_neg h1, if_neg h2, List.mem_cons, ih]
        tauto

theorem sorted_insertSorted (x : String) (l : List String)
    (h : List.Sorted (· < ·) l) : List.Sorted (· < ·) (insertSorted x l) := by
  induction l with
  | nil => simp [insertSorted]
  | cons y ys ih =>
    rw [List.sorted_cons] at h
    obtain ⟨hy, hys⟩ := h
    by_cases h1 : x < y
    · rw [insertSorted, if_pos h1, List.sorted_cons]
      refine ⟨?_, (List.sorted_cons).mpr ⟨hy, hys⟩⟩
      intro b hb
      rcases List.mem_cons.mp hb with rfl | hb
      · exact h1
      · exact lt_trans h1 (hy b hb)
    · by_cases h2 : x = y
      · rw [insertSorted, if_neg h1, if_pos h2, List.sorted_cons]
        exact ⟨hy, hys⟩
      · rw [insertSorted, if_neg h1, if_neg h2, List.sorted_cons]
        refine ⟨?_, ih hys⟩
        intro b hb
        rcases (mem_insertSorted x b ys).mp hb with rfl | hb
        · rcases lt_trichotomy b y with hlt | heq | hgt
          · exact absurd hlt h1
          · exact absurd heq h2
          · exact hgt
        · exact hy b hb

theorem sorted_sortedDedup (l : List String) :
    List.Sorted (· < ·) (sortedDedup l) := by
  induction l with
  | nil => simp [sortedDedup]
  | cons x xs ih =>
    rw [sortedDedup, List.foldr_cons]
    exact sorted_insertSorted x _ ih

theorem mem_sortedDedup (a : String) (l : List String) :
    a ∈ sortedDedup l ↔ a ∈ l := by
  induction l with
  | nil => simp [sortedDedup]
  | cons x xs ih =>
    rw [sortedDedup, List.foldr_cons, mem_insertSorted, List.mem_cons]
    rw [sortedDedup] at ih
    rw [ih]

theorem sorted_eq_of_mem_iff {l₁ l₂ : List String}
    (h1 : List.Sorted (· < ·) l₁) (h2 : List.Sorted (· < ·) l₂)
    (hm : ∀ a, a ∈ l₁ ↔ a ∈ l₂) : l₁ = l₂ := by
  induction l₁ generalizing l₂ with
  | nil =>
    cases l₂ with
    | nil => rfl
    | cons b t => exact absurd ((hm b).mpr (List.mem_cons_self b t)) (List.not_mem_nil b)
  | cons a t1 ih =>
    cases l₂ with
    | nil => exact absurd ((hm a).mp (List.mem_cons_self a t1)) (List.not_mem_nil a)
    | cons b t2 =>
      rw [List.sorted_cons] at h1 h2
      have hab : a = b := by
        rcases List.mem_cons.mp ((hm a).mp (List.mem_cons_self a t1)) with h | h
        · exact h
        · rcases List.mem_cons.mp ((hm b).mpr (List.mem_cons_self b t2)) with h' | h'
          · exact h'.symm
          · exact absurd (lt_trans (h1.1 b h') (h2.1 a h)) (lt_irrefl a)
      subst hab
      have htail : ∀ c, c ∈ t1 ↔ c ∈ t2 := by
        intro c
        constructor
        · intro hc
          rcases List.mem_cons.mp ((hm c).mp (List.mem_cons_of_mem a hc)) with rfl | h
          · exact absurd (h1.1 c hc) (lt_irrefl c)
          · exact h
        · intro hc
          rcases List.mem_cons.mp ((hm c).mpr (List.mem_cons_of_mem a hc)) with rfl | h
          · exact absurd (h2.1 c hc) (lt_irrefl c)
          · exact h
      rw [ih h1.2 h2.2 htail]

theorem sortedDedup_absorb (b n : List String) :
    sortedDedup (sortedDedup (b ++ n) ++ n) = sortedDedup (b ++ n) := by
  apply sorted_eq_of_mem_iff (sorted_sortedDedup _) (sorted_sortedDedup _)
  intro a
  rw [mem_sortedDedup, List.mem_append, mem_sortedDedup, List.mem_append]
  tauto

theorem sortedDedup_congr_mem (l l' : List String) (h : ∀ a, a ∈ l ↔ a ∈ l') :
    sortedDedup l = sortedDedup l' := by
  apply sorted_eq_of_mem_iff (sorted_sortedDedup _) (sorted_sortedDedup _)
  intro a
  rw [mem_sortedDedup, mem_sortedDedup]
  exact h a

theorem asStrs_map_str (l : List String) : asStrs (l.map PyVal.str) = some l := by
  induction l with
  | nil => rfl
  | cons s rest ih => simp [asStrs, ih]

/-! ## Claim theorems -/

/-- C5: for every object, pattern, scope and replacement set,
`update_attr_val` on `tags` or on `maintainers` fails immediately with
the `_excluded_attrs` error — the check runs before any attribute of the
object is inspected or mutated, so these two attributes can never be
edited through the generic update path. -/
theorem update_attr_val_excluded_attrs (o : RObject) (nm : String)
    (keys : Option String) (kwargs : PyDict) :
    _execute_update_attr_val "tags" nm keys kwargs o =
      Except.error (PyErr.directiveError
        "Attribute tags cannot be updated using generic update_attribute") ∧
    _execute_update_attr_val "maintainers" nm keys kwargs o =
      Except.error (PyErr.directiveError
        "Attribute maintainers cannot be updated using generic update_attribute") :=
  ⟨rfl, rfl⟩

/-- Sample object whose `software_specs` container has no key matching
`hpl`. -/
def sampleC3 : RObject :=
  RObject.mk "hpl-app" "builtin::\x7bname\x7d"
    [("software_specs", PyVal.dict
      [("ompi", PyVal.dict [("spack_spec", PyVal.str "openmpi")])])]

/-- C3: evaluation of the code at the failing input.  When
`remove_attr_val('software_specs', 'hpl')` matches zero keys, the raised
`DirectiveError` carries the uninterpolated literal text
`"\x7bmessage\x7d[\x7bname\x7d] not found"`: the string on line 367 of
`shared_language.py` lacks the `f` prefix, so the message names neither
the container that was searched nor the pattern that failed to match,
contradicting both the spec and the interpolation used by every sibling
error in the same file. -/
theorem remove_attr_val_error_message_literal :
    _execute_remove_attr_val "software_specs" "hpl" Option.none sampleC3 =
      Except.error (PyErr.directiveError "\x7bmessage\x7d[\x7bname\x7d] not found") := by
  rfl

/-- C8: every entry the `figure_of_merit` directive creates in
`figures_of_merit` is a dict with exactly the fields `log_file`,
`regex`, `group_name`, `units` and `contexts`, in that order, with
`regex` bound to the directive's `fom_regex` argument — for every choice
of directive arguments and every object carrying the container. -/
theorem figure_of_merit_entry_shape (o : RObject)
    (nm fom_regex group_name log_file units : String) (contexts : PyVal)
    (d : PyDict) (h : o.getattr "figures_of_merit" = some (PyVal.dict d)) :
    _execute_figure_of_merit nm fom_regex group_name log_file units contexts o =
      Except.ok (o.setattr "figures_of_merit" (PyVal.dict (setVal d nm (PyVal.dict
        [("log_file", PyVal.str log_file),
         ("regex", PyVal.str fom_regex),
         ("group_name", PyVal.str group_name),
         ("units", PyVal.str units),
         ("contexts", contexts)])))) := by
  simp only [_execute_figure_of_merit, h]

/-- C6: a `register_builtin` directive whose `injection_method` is
neither `prepend` nor `append` raises a `DirectiveError` whose message
names the object (`obj.name`) and the bad value, and the builtins
container is untouched (the error is returned instead of a new object);
for a valid method the builtin is stored under its fully-qualified name
(`obj._builtin_name.format(obj_name=obj.name, name=name)`) with its
`name`, `required` flag and `injection_method`. -/
theorem register_builtin_spec (o : RObject) (nm im : String) (required : Bool)
    (d : PyDict) (h : o.getattr "builtins" = some (PyVal.dict d)) :
    ((["prepend", "append"].contains im) = false →
      _store_builtin nm required im o =
        Except.error (PyErr.directiveError
          ("Object " ++ o.name ++ " has an invalid injection method of "
            ++ im ++ ".\nValid methods are ['prepend', 'append']"))) ∧
    ((["prepend", "append"].contains im) = true →
      _store_builtin nm required im o =
        Except.ok (o.setattr "builtins" (PyVal.dict (setVal d
          (formatBuiltinName o.builtin_name.data o.name nm)
          (PyVal.dict
            [("name", PyVal.str nm),
             ("required", PyVal.bool required),
             ("injection_method", PyVal.str im)]))))) := by
  constructor
  · intro hc
    simp only [_store_builtin, hc, Bool.not_false]
    simp only [supported_injection_methods_repr, if_true]
    rw [String.append_assoc]
    rw [show (".\nValid methods are " ++ "['prepend', 'append']" : String) =
      ".\nValid methods are ['prepend', 'append']" from rfl]
  · intro hc
    simp only [_store_builtin, hc, h]
    rfl

/-- C7: a `success_criteria` directive with a mode outside the valid
modes (`string`, `application_function`, `fom_comparison`) dies
immediately (at directive execution, before any experiment runs) and no
criterion is stored; a valid mode stores the criterion under its name
with exactly the fields `mode`, `match`, `file`, `fom_name`,
`fom_context` and `formula`. -/
theorem success_criteria_spec (o : RObject) (nm mode file fom_context : String)
    (mtch fom_name formula : PyVal) (d : PyDict)
    (h : o.getattr "success_criteria" = some (PyVal.dict d)) :
    (valid_modes.contains mode = false →
      _execute_success_criteria nm mode mtch file fom_name fom_context formula o =
        Except.error (PyErr.die ("Mode " ++ mode ++
          " is not valid. Valid values are ['string', 'application_function', 'fom_comparison']"))) ∧
    (valid_modes.contains mode = true →
      _execute_success_criteria nm mode mtch file fom_name fom_context formula o =
        Except.ok (o.setattr "success_criteria" (PyVal.dict (setVal d nm (PyVal.dict
          [("mode", PyVal.str mode),
           ("match", mtch),
           ("file", PyVal.str file),
           ("fom_name", fom_name),
           ("fom_context", PyVal.str fom_context),
           ("formula", formula)]))))) := by
  constructor
  · intro hc
    simp only [_execute_success_criteria, hc]
    rw [if_neg Bool.false_ne_true]
    simp only [valid_modes_repr]
    rw [String.append_assoc]
    rw [show (" is not valid. Valid values are " ++
        "['string', 'application_function', 'fom_comparison']" : String) =
      " is not valid. Valid values are ['string', 'application_function', 'fom_comparison']" from rfl]
  · intro hc
    simp only [_execute_success_criteria, hc, h]
    rfl

/-- C9: the `software_spec` and `default_compiler` directives are
guarded by `hasattr(obj, 'uses_spack') and getattr(obj, 'uses_spack')`:
when `uses_spack` is absent or falsy the object is returned entirely
unchanged (the spec is silently dropped, no error); only when
`uses_spack` is truthy is an entry added to `software_specs`
(respectively `default_compilers`). -/
theorem software_spec_uses_spack_guard (o : RObject) (nm spack_spec : String)
    (compiler_spec compiler : PyVal) :
    (o.getattr "uses_spack" = Option.none →
      _execute_software_spec nm spack_spec compiler_spec compiler o = Except.ok o ∧
      _execute_default_compiler nm spack_spec compiler_spec compiler o = Except.ok o) ∧
    (∀ v, o.getattr "uses_spack" = some v → v.truthy = false →
      _execute_software_spec nm spack_spec compiler_spec compiler o = Except.ok o ∧
      _execute_default_compiler nm spack_spec compiler_spec compiler o = Except.ok o) ∧
    (∀ v d, o.getattr "uses_spack" = some v → v.truthy = true →
      o.getattr "software_specs" = some (PyVal.dict d) →
      _execute_software_spec nm spack_spec compiler_spec compiler o =
        Except.ok (o.setattr "software_specs" (PyVal.dict (setVal d nm (PyVal.dict
          [("spack_spec", PyVal.str spack_spec),
           ("compiler_spec", compiler_spec),
           ("compiler", compiler)]))))) ∧
    (∀ v d, o.getattr "uses_spack" = some v → v.truthy = true →
      o.getattr "default_compilers" = some (PyVal.dict d) →
      _execute_default_compiler nm spack_spec compiler_spec compiler o =
        Except.ok (o.setattr "default_compilers" (PyVal.dict (setVal d nm (PyVal.dict
          [("spack_spec", PyVal.str spack_spec),
           ("compiler_spec", compiler_spec),
           ("compiler", compiler)]))))) := by
  refine ⟨?_, ?_, ?_, ?_⟩
  · intro h
    exact ⟨by simp only [_execute_software_spec, h],
           by simp only [_execute_default_compiler, h]⟩
  · intro v hv htr
    exact ⟨by simp only [_execute_software_spec, hv, htr]; rfl,
           by simp only [_execute_default_compiler, hv, htr]; rfl⟩
  · intro v d hv htr hd
    simp only [_execute_software_spec, hv, htr, hd]
    rfl
  · intro v d hv htr hd
    simp only [_execute_default_compiler, hv, htr, hd]
    rfl

theorem remove_or_pop_dict_nomatch (m nm : String) (e : PyDict)
    (h : (dictKeys e).any (fun k => fnmatch k nm) = false) :
    _remove_or_pop_item (PyVal.dict e) m nm =
      Except.error (PyErr.directiveError "\x7bmessage\x7d[\x7bname\x7d] not found") := by
  have hlen : ¬ (0 < ((dictKeys e).filter (fun k => fnmatch k nm)).length) := by
    rw [filter_length_pos_iff_any]
    simp [h]
  simp only [_remove_or_pop_item]
  rw [if_neg hlen]

/-- C2: for a dict-valued attribute container, `remove_attr_val` with no
`keys` removes exactly the keys that glob-match `name` (all other
entries, and all other attributes, are untouched), and raises a
`DirectiveError` instead of silently doing nothing when zero keys match
— so a second identical call after a successful removal fails.  With
`keys`, every sub-container whose key matches `keys` has its matching
keys removed, and zero outer matches raise a `DirectiveError`. -/
theorem remove_attr_val_spec (o : RObject) (attr nm : String)
    (keys : Option String) (d : PyDict)
    (h : o.getattr attr = some (PyVal.dict d)) :
    (keys = Option.none →
      ((dictKeys d).any (fun k => fnmatch k nm) = false →
        _execute_remove_attr_val attr nm keys o =
          Except.error (PyErr.directiveError "\x7bmessage\x7d[\x7bname\x7d] not found")) ∧
      ((dictKeys d).any (fun k => fnmatch k nm) = true →
        _execute_remove_attr_val attr nm keys o =
          Except.ok (o.setattr attr (PyVal.dict (remSpec nm d))))) ∧
    (∀ ks, keys = some ks →
      ((dictKeys d).any (fun k => fnmatch k ks) = false →
        _execute_remove_attr_val attr nm keys o =
          Except.error (PyErr.directiveError (attr ++ "[" ++ ks ++ "] not found"))) ∧
      (d.all (fun p => !(fnmatch p.1 ks) || subRemOk nm p.2) = true →
       (dictKeys d).any (fun k => fnmatch k ks) = true →
        _execute_remove_attr_val attr nm keys o =
          Except.ok (o.setattr attr (PyVal.dict (d.map (fun p =>
            if fnmatch p.1 ks then (p.1, remSpecVal nm p.2) else p)))))) := by
  constructor
  · rintro rfl
    constructor
    · intro hno
      simp only [_execute_remove_attr_val, h, remove_or_pop_dict_nomatch attr nm d hno,
        except_bind_error]
    · intro hyes
      simp only [_execute_remove_attr_val, h, remove_or_pop_dict_ok attr nm d hyes,
        except_bind_ok]
  · rintro ks rfl
    constructor
    · intro hno
      have hlen : ¬ (0 < ((dictKeys d).filter (fun k => fnmatch k ks)).length) := by
        rw [filter_length_pos_iff_any]
        simp [hno]
      simp only [_execute_remove_attr_val, h]
      rw [if_neg hlen]
    · intro hall hyes
      have hlen : 0 < ((dictKeys d).filter (fun k => fnmatch k ks)).length :=
        (filter_length_pos_iff_any _ _).mpr hyes
      simp only [_execute_remove_attr_val, h]
      rw [if_pos hlen]
      simp only [removeOuter_eq_ok attr ks nm d hall, except_bind_ok]

/-- C1: for a dict-valued, non-excluded attribute container,
`update_attr_val` fails with a `DirectiveError` when no replacement
fields are supplied or when the glob pattern (`name`, and `keys` when
given) matches zero existing keys; when the pattern matches at least one
key (replacements supplied and type-compatible), exactly the matched
entries get the named fields replaced (`updSpec`/`updSpecOuter` touch
the matched entries only and leave every other entry and attribute
untouched). -/
theorem update_attr_val_spec (o : RObject) (attr nm : String)
    (keys : Option String) (kwargs : PyDict) (d : PyDict)
    (hex1 : attr ≠ "tags") (hex2 : attr ≠ "maintainers")
    (h : o.getattr attr = some (PyVal.dict d)) :
    (kwargs = [] →
      _execute_update_attr_val attr nm keys kwargs o =
        Except.error (PyErr.directiveError "No kwargs provided for update_attr_val")) ∧
    (kwargs ≠ [] →
      (keys = Option.none →
        ((dictKeys d).any (fun k => fnmatch k nm) = false →
          _execute_update_attr_val attr nm keys kwargs o =
            Except.error (PyErr.directiveError (attr ++ "[" ++ nm ++ "] not found"))) ∧
        (allMatchedOk nm kwargs d = true →
         (dictKeys d).any (fun k => fnmatch k nm) = true →
          _execute_update_attr_val attr nm keys kwargs o =
            Except.ok (o.setattr attr (PyVal.dict (updSpec nm kwargs d))))) ∧
      (∀ ks, keys = some ks →
        ((dictKeys d).any (fun k => fnmatch k ks) = false →
          _execute_update_attr_val attr nm keys kwargs o =
            Except.error (PyErr.directiveError (attr ++ "[" ++ ks ++ "] not found"))) ∧
        (d.all (fun p => !(fnmatch p.1 ks) || innerOk nm kwargs p.2) = true →
         (dictKeys d).any (fun k => fnmatch k ks) = true →
          _execute_update_attr_val attr nm keys kwargs o =
            Except.ok (o.setattr attr (PyVal.dict (updSpecOuter ks nm kwargs d)))))) := by
  have hexb : (attr == "tags" || attr == "maintainers") = false := by
    simp [hex1, hex2]
  constructor
  · rintro rfl
    simp only [_execute_update_attr_val, hexb, h]
    rw [if_neg Bool.false_ne_true]
    rfl
  · intro hk
    have hklen : 0 < kwargs.length := List.length_pos.mpr hk
    constructor
    · rintro rfl
      constructor
      · intro hno
        simp only [_execute_update_attr_val, hexb, h]
        rw [if_neg Bool.false_ne_true, if_pos hklen]
        simp only [_update_items, hno]
        rw [if_neg Bool.false_ne_true]
        rfl
      · intro hok hyes
        simp only [_execute_update_attr_val, hexb, h]
        rw [if_neg Bool.false_ne_true, if_pos hklen]
        simp only [_update_items, hyes, if_true, updateAll_eq_ok attr nm kwargs d hok,
          except_map_ok, except_bind_ok]
    · rintro ks rfl
      constructor
      · intro hno
        simp only [_execute_update_attr_val, hexb, h]
        rw [if_neg Bool.false_ne_true, if_pos hklen]
        simp only [hno]
        rw [if_neg Bool.false_ne_true]
      · intro hall hyes
        simp only [_execute_update_attr_val, hexb, h]
        rw [if_neg Bool.false_ne_true, if_pos hklen]
        simp only [hyes, if_true, updateOuter_eq_ok attr ks nm kwargs d hall,
          except_bind_ok]

theorem except_map_error {α β : Type} (f : α → β) (e : PyErr) :
    Except.map f (Except.error e : Except PyErr α) = Except.error e := rfl

theorem not_entryBad_of_entryOk (kwargs : PyDict) (v : PyVal)
    (h : entryOk kwargs v = true) : entryBad kwargs v = false := by
  cases v with
  | dict e =>
    rw [entryOk] at h
    rw [entryBad, List.any_eq_false]
    intro q hq
    have hf := List.all_eq_true.mp h q hq
    cases hlk : lookupVal kwargs q.1 with
    | none => simp [hlk]
    | some w =>
      rw [hlk] at hf
      have hf' : isinstanceT w.typeOf q.2.typeOf = true := hf
      simp [hlk, hf']
  | str s => simp [entryOk] at h
  | int n => simp [entryOk] at h
  | bool b => simp [entryOk] at h
  | none => simp [entryOk] at h
  | list l => simp [entryOk] at h

/-- C4: if some glob-matched entry of the container has an existing
field whose replacement in `kwargs` has a mismatched runtime type
(`isinstance(kwargs[k], type(v))` fails, with Python's `bool` a subtype
of `int`), then the whole `update_attr_val` call returns an error: no
object with a mismatched replacement stored in that entry is ever
produced. -/
theorem update_attr_val_type_mismatch (o : RObject) (attr nm : String)
    (kwargs : PyDict) (d : PyDict)
    (h : o.getattr attr = some (PyVal.dict d))
    (hbad : d.any (fun p => fnmatch p.1 nm && entryBad kwargs p.2) = true) :
    isError (_execute_update_attr_val attr nm Option.none kwargs o) = true := by
  cases hres : _execute_update_attr_val attr nm Option.none kwargs o with
  | error e => rfl
  | ok o' =>
    exfalso
    by_cases hexb : (attr == "tags" || attr == "maintainers") = true
    · rw [_execute_update_attr_val, if_pos hexb] at hres
      exact Except.noConfusion hres
    · have hexb' : (attr == "tags" || attr == "maintainers") = false :=
        Bool.eq_false_iff.mpr hexb
      simp only [_execute_update_attr_val, hexb', h] at hres
      rw [if_neg Bool.false_ne_true] at hres
      by_cases hkw : kwargs.length > 0
      · rw [if_pos hkw] at hres
        simp only [_update_items] at hres
        by_cases hany : ((dictKeys d).any (fun k => fnmatch k nm)) = true
        · rw [if_pos hany] at hres
          cases hupd : updateAll attr nm kwargs d with
          | error e =>
            rw [hupd] at hres
            simp only [except_map_error, except_bind_error] at hres
            exact Except.noConfusion hres
          | ok d2 =>
            have hok := allMatchedOk_of_updateAll_eq_ok attr nm kwargs d d2 hupd
            obtain ⟨p, hp, hpb⟩ := List.any_eq_true.mp hbad
            rw [Bool.and_eq_true] at hpb
            obtain ⟨hpf, hpbad⟩ := hpb
            have hpok : (!(fnmatch p.1 nm) || entryOk kwargs p.2) = true :=
              List.all_eq_true.mp hok p hp
            rw [hpf] at hpok
            have hok2 : entryOk kwargs p.2 = true := by simpa using hpok
            rw [not_entryBad_of_entryOk kwargs p.2 hok2] at hpbad
            exact Bool.false_ne_true hpbad
        · rw [if_neg hany] at hres
          exact Except.noConfusion hres
      · rw [if_neg hkw] at hres
        exact Except.noConfusion hres

theorem getattr_setattr_self (o : RObject) (a : String) (v : PyVal) :
    (o.setattr a v).getattr a = some v :=
  lookupVal_setVal_self o.attrs a v

theorem setattr_setattr_self (o : RObject) (a : String) (v : PyVal) :
    (o.setattr a v).setattr a v = o.setattr a v := by
  simp only [RObject.setattr]
  rw [setVal_idem]

theorem maintainer_run (o : RObject) (names bs : List String)
    (h : o.getattr "maintainers" = some (PyVal.list (bs.map PyVal.str))) :
    _execute_maintainer names o = Except.ok (o.setattr "maintainers"
      (PyVal.list ((sortedDedup (bs ++ names)).map PyVal.str))) := by
  simp only [_execute_maintainer, h, asStrs_map_str]

theorem tag_run (o : RObject) (values cs : List String)
    (h : o.getattr "tags" = some (PyVal.list (cs.map PyVal.str))) :
    _execute_tag values o = Except.ok (o.setattr "tags"
      (PyVal.list ((sortedDedup (cs ++ values)).map PyVal.str))) := by
  simp only [_execute_tag, h, asStrs_map_str]

/-- C10: the `maintainers` (resp. `tags`) directive sets the attribute
to the sorted, duplicate-free union of its previous value and the
arguments: the run succeeds with a strictly sorted, duplicate-free list
whose members are exactly the old members plus the arguments; running
the same directive again on the result is a no-op (idempotence), and a
permutation of the arguments produces the identical result. -/
theorem maintainers_tags_sorted_union (o : RObject) (names names2 bs cs : List String)
    (hperm : names.Perm names2)
    (hm : o.getattr "maintainers" = some (PyVal.list (bs.map PyVal.str)))
    (ht : o.getattr "tags" = some (PyVal.list (cs.map PyVal.str))) :
    (∃ r, _execute_maintainer names o =
        Except.ok (o.setattr "maintainers" (PyVal.list (r.map PyVal.str))) ∧
      List.Sorted (· < ·) r ∧ r.Nodup ∧
      (∀ x, x ∈ r ↔ x ∈ bs ∨ x ∈ names) ∧
      _execute_maintainer names
          (o.setattr "maintainers" (PyVal.list (r.map PyVal.str))) =
        Except.ok (o.setattr "maintainers" (PyVal.list (r.map PyVal.str)))) ∧
    _execute_maintainer names2 o = _execute_maintainer names o ∧
    (∃ r, _execute_tag names o =
        Except.ok (o.setattr "tags" (PyVal.list (r.map PyVal.str))) ∧
      List.Sorted (· < ·) r ∧ r.Nodup ∧
      (∀ x, x ∈ r ↔ x ∈ cs ∨ x ∈ names) ∧
      _execute_tag names (o.setattr "tags" (PyVal.list (r.map PyVal.str))) =
        Except.ok (o.setattr "tags" (PyVal.list (r.map PyVal.str)))) ∧
    _execute_tag names2 o = _execute_tag names o := by
  refine ⟨?_, ?_, ?_, ?_⟩
  · refine ⟨sortedDedup (bs ++ names), maintainer_run o names bs hm, sorted_sortedDedup _,
      (sorted_sortedDedup _).nodup, ?_, ?_⟩
    · intro x
      rw [mem_sortedDedup, List.mem_append]
    · have hrun2 := maintainer_run (o.setattr "maintainers"
        (PyVal.list ((sortedDedup (bs ++ names)).map PyVal.str))) names
        (sortedDedup (bs ++ names))
        (getattr_setattr_self o "maintainers" _)
      rw [sortedDedup_absorb, setattr_setattr_self] at hrun2
      exact hrun2
  · rw [maintainer_run o names bs hm, maintainer_run o names2 bs hm]
    rw [sortedDedup_congr_mem (bs ++ names2) (bs ++ names)
      (fun a => by simp [List.mem_append, hperm.mem_iff])]
  · refine ⟨sortedDedup (cs ++ names), tag_run o names cs ht, sorted_sortedDedup _,
      (sorted_sortedDedup _).nodup, ?_, ?_⟩
    · intro x
      rw [mem_sortedDedup, List.mem_append]
    · have hrun2 := tag_run (o.setattr "tags"
        (PyVal.list ((sortedDedup (cs ++ names)).map PyVal.str))) names
        (sortedDedup (cs ++ names))
        (getattr_setattr_self o "tags" _)
      rw [sortedDedup_absorb, setattr_setattr_self] at hrun2
      exact hrun2
  · rw [tag_run o names cs ht, tag_run o names2 cs ht]
    rw [sortedDedup_congr_mem (cs ++ names2) (cs ++ names)
      (fun a => by simp [List.mem_append, hperm.mem_iff])]

/-! ## Witnesses: the claim theorems applied at concrete inputs -/

/-- Sample object for the C1 witness: two inputs whose keys match
the glob `CONUS*`. -/
def sampleC1 : RObject :=
  RObject.mk "wrfv4" "builtin::\x7bname\x7d"
    [("inputs", PyVal.dict
      [("CONUS_2p5km", PyVal.dict
        [("url", PyVal.str "u1"), ("sha256", PyVal.str "s1")]),
       ("CONUS_12km", PyVal.dict
        [("url", PyVal.str "u2")])])]

theorem update_attr_val_spec_witness :
    _execute_update_attr_val "inputs" "CONUS*" Option.none
        [("url", PyVal.str "u3")] sampleC1 =
      Except.ok (RObject.mk "wrfv4" "builtin::\x7bname\x7d"
        [("inputs", PyVal.dict
          [("CONUS_2p5km", PyVal.dict
            [("url", PyVal.str "u3"), ("sha256", PyVal.str "s1")]),
           ("CONUS_12km", PyVal.dict
            [("url", PyVal.str "u3")])])]) := by
  have h := (((update_attr_val_spec sampleC1 "inputs" "CONUS*" Option.none
      [("url", PyVal.str "u3")]
      [("CONUS_2p5km", PyVal.dict
        [("url", PyVal.str "u1"), ("sha256", PyVal.str "s1")]),
       ("CONUS_12km", PyVal.dict [("url", PyVal.str "u2")])]
      (by decide) (by decide) rfl).2
      (by simp)).1 rfl).2 rfl rfl
  exact h

/-- Sample object for the C2 witness: `software_specs` holds `hpl` and
`ompi`. -/
def sampleC2 : RObject :=
  RObject.mk "hpl-app" "builtin::\x7bname\x7d"
    [("software_specs", PyVal.dict
      [("hpl", PyVal.dict [("spack_spec", PyVal.str "hpl@2.3")]),
       ("ompi", PyVal.dict [("spack_spec", PyVal.str "openmpi")])])]

/-- Object left after the first removal of the C2 witness. -/
def sampleC2after : RObject :=
  RObject.mk "hpl-app" "builtin::\x7bname\x7d"
    [("software_specs", PyVal.dict
      [("ompi", PyVal.dict [("spack_spec", PyVal.str "openmpi")])])]

theorem remove_attr_val_spec_witness :
    _execute_remove_attr_val "software_specs" "hpl" Option.none sampleC2 =
      Except.ok sampleC2after ∧
    _execute_remove_attr_val "software_specs" "hpl" Option.none sampleC2after =
      Except.error (PyErr.directiveError "\x7bmessage\x7d[\x7bname\x7d] not found") := by
  constructor
  · exact ((remove_attr_val_spec sampleC2 "software_specs" "hpl" Option.none
      [("hpl", PyVal.dict [("spack_spec", PyVal.str "hpl@2.3")]),
       ("ompi", PyVal.dict [("spack_spec", PyVal.str "openmpi")])] rfl).1 rfl).2 rfl
  · exact ((remove_attr_val_spec sampleC2after "software_specs" "hpl" Option.none
      [("ompi", PyVal.dict [("spack_spec", PyVal.str "openmpi")])] rfl).1 rfl).1 rfl

/-- Sample object for the C4 witness: the `url` field is a string, the
replacement below is an int. -/
def sampleC4 : RObject :=
  RObject.mk "wrfv4" "builtin::\x7bname\x7d"
    [("inputs", PyVal.dict
      [("CONUS_2p5km", PyVal.dict [("url", PyVal.str "u1")])])]

theorem update_attr_val_type_mismatch_witness :
    isError (_execute_update_attr_val "inputs" "CONUS*" Option.none
      [("url", PyVal.int 4)] sampleC4) = true :=
  update_attr_val_type_mismatch sampleC4 "inputs" "CONUS*"
    [("url", PyVal.int 4)]
    [("CONUS_2p5km", PyVal.dict [("url", PyVal.str "u1")])] rfl rfl

/-- Sample modifier object for the C6 witness. -/
def sampleC6 : RObject :=
  RObject.mk "test-mod" "modifier_builtin::\x7bobj_name\x7d::\x7bname\x7d"
    [("builtins", PyVal.dict [])]

theorem register_builtin_spec_witness :
    _store_builtin "example_builtin" true "insert" sampleC6 =
      Except.error (PyErr.directiveError
        "Object test-mod has an invalid injection method of insert.\nValid methods are ['prepend', 'append']") ∧
    _store_builtin "example_builtin" true "append" sampleC6 =
      Except.ok (sampleC6.setattr "builtins" (PyVal.dict
        [("modifier_builtin::test-mod::example_builtin", PyVal.dict
          [("name", PyVal.str "example_builtin"),
           ("required", PyVal.bool true),
           ("injection_method", PyVal.str "append")])])) := by
  constructor
  · exact (register_builtin_spec sampleC6 "example_builtin" "insert" true [] rfl).1 rfl
  · exact (register_builtin_spec sampleC6 "example_builtin" "append" true [] rfl).2 rfl

/-- Sample object for the C7 witness. -/
def sampleC7 : RObject :=
  RObject.mk "app" "builtin::\x7bname\x7d" [("success_criteria", PyVal.dict [])]

theorem success_criteria_spec_witness :
    _execute_success_criteria "valid" "regex" PyVal.none "\x7blog_file\x7d"
        PyVal.none "null" PyVal.none sampleC7 =
      Except.error (PyErr.die
        "Mode regex is not valid. Valid values are ['string', 'application_function', 'fom_comparison']") ∧
    _execute_success_criteria "valid" "string" (PyVal.str "Success") "\x7blog_file\x7d"
        PyVal.none "null" PyVal.none sampleC7 =
      Except.ok (sampleC7.setattr "success_criteria" (PyVal.dict
        [("valid", PyVal.dict
          [("mode", PyVal.str "string"),
           ("match", PyVal.str "Success"),
           ("file", PyVal.str "\x7blog_file\x7d"),
           ("fom_name", PyVal.none),
           ("fom_context", PyVal.str "null"),
           ("formula", PyVal.none)])])) := by
  constructor
  · exact (success_criteria_spec sampleC7 "valid" "regex" "\x7blog_file\x7d" "null"
      PyVal.none PyVal.none PyVal.none [] rfl).1 rfl
  · exact (success_criteria_spec sampleC7 "valid" "string" "\x7blog_file\x7d" "null"
      (PyVal.str "Success") PyVal.none PyVal.none [] rfl).2 rfl

/-- Sample object for the C8 witness. -/
def sampleC8 : RObject :=
  RObject.mk "basic" "builtin::\x7bname\x7d" [("figures_of_merit", PyVal.dict [])]

theorem figure_of_merit_entry_shape_witness :
    _execute_figure_of_merit "test_fom" "(?P<test>[0-9]+)" "test" "log_file" "s"
        (PyVal.list []) sampleC8 =
      Except.ok (sampleC8.setattr "figures_of_merit" (PyVal.dict
        [("test_fom", PyVal.dict
          [("log_file", PyVal.str "log_file"),
           ("regex", PyVal.str "(?P<test>[0-9]+)"),
           ("group_name", PyVal.str "test"),
           ("units", PyVal.str "s"),
           ("contexts", PyVal.list [])])])) :=
  figure_of_merit_entry_shape sampleC8 "test_fom" "(?P<test>[0-9]+)" "test"
    "log_file" "s" (PyVal.list []) [] rfl

/-- Sample objects for the C9 witness: no `uses_spack`, a falsy
`uses_spack`, and a truthy one with both target containers. -/
def sampleC9a : RObject :=
  RObject.mk "plain" "builtin::\x7bname\x7d" [("software_specs", PyVal.dict [])]

def sampleC9b : RObject :=
  RObject.mk "no-spack" "builtin::\x7bname\x7d"
    [("uses_spack", PyVal.bool false), ("software_specs", PyVal.dict [])]

def sampleC9c : RObject :=
  RObject.mk "spack-app" "builtin::\x7bname\x7d"
    [("uses_spack", PyVal.bool true),
     ("software_specs", PyVal.dict []),
     ("default_compilers", PyVal.dict [])]

theorem software_spec_uses_spack_guard_witness :
    (_execute_software_spec "hpl" "hpl@2.3" PyVal.none PyVal.none sampleC9a =
        Except.ok sampleC9a ∧
     _execute_default_compiler "gcc9" "gcc@9.3.0" PyVal.none PyVal.none sampleC9a =
        Except.ok sampleC9a) ∧
    (_execute_software_spec "hpl" "hpl@2.3" PyVal.none PyVal.none sampleC9b =
        Except.ok sampleC9b) ∧
    (_execute_software_spec "hpl" "hpl@2.3" PyVal.none PyVal.none sampleC9c =
      Except.ok (sampleC9c.setattr "software_specs" (PyVal.dict
        [("hpl", PyVal.dict
          [("spack_spec", PyVal.str "hpl@2.3"),
           ("compiler_spec", PyVal.none),
           ("compiler", PyVal.none)])]))) ∧
    (_execute_default_compiler "gcc9" "gcc@9.3.0" PyVal.none PyVal.none sampleC9c =
      Except.ok (sampleC9c.setattr "default_compilers" (PyVal.dict
        [("gcc9", PyVal.dict
          [("spack_spec", PyVal.str "gcc@9.3.0"),
           ("compiler_spec", PyVal.none),
           ("compiler", PyVal.none)])]))) := by
  refine ⟨?_, ?_, ?_, ?_⟩
  · exact (software_spec_uses_spack_guard sampleC9a "hpl" "hpl@2.3"
      PyVal.none PyVal.none).1 rfl
    |>.imp (fun x => x) (fun _ =>
      ((software_spec_uses_spack_guard sampleC9a "gcc9" "gcc@9.3.0"
        PyVal.none PyVal.none).1 rfl).2)
  · exact ((software_spec_uses_spack_guard sampleC9b "hpl" "hpl@2.3"
      PyVal.none PyVal.none).2.1 (PyVal.bool false) rfl rfl).1
  · exact (software_spec_uses_spack_guard sampleC9c "hpl" "hpl@2.3"
      PyVal.none PyVal.none).2.2.1 (PyVal.bool true) [] rfl rfl rfl
  · exact (software_spec_uses_spack_guard sampleC9c "gcc9" "gcc@9.3.0"
      PyVal.none PyVal.none).2.2.2 (PyVal.bool true) [] rfl rfl rfl

/-- Sample object for the C10 witness. -/
def sampleC10 : RObject :=
  RObject.mk "wrfv4" "builtin::\x7bname\x7d"
    [("maintainers", PyVal.list [PyVal.str "zeb", PyVal.str "al"]),
     ("tags", PyVal.list [PyVal.str "hpc"])]

theorem maintainers_tags_sorted_union_witness :
    (∃ r, _execute_maintainer ["al", "bob"] sampleC10 =
        Except.ok (sampleC10.setattr "maintainers" (PyVal.list (r.map PyVal.str))) ∧
      List.Sorted (· < ·) r ∧ r.Nodup ∧
      (∀ x, x ∈ r ↔ x ∈ ["zeb", "al"] ∨ x ∈ ["al", "bob"]) ∧
      _execute_maintainer ["al", "bob"]
          (sampleC10.setattr "maintainers" (PyVal.list (r.map PyVal.str))) =
        Except.ok (sampleC10.setattr "maintainers" (PyVal.list (r.map PyVal.str)))) ∧
    _execute_maintainer ["bob", "al"] sampleC10 =
      _execute_maintainer ["al", "bob"] sampleC10 ∧
    (∃ r, _execute_tag ["al", "bob"] sampleC10 =
        Except.ok (sampleC10.setattr "tags" (PyVal.list (r.map PyVal.str))) ∧
      List.Sorted (· < ·) r ∧ r.Nodup ∧
      (∀ x, x ∈ r ↔ x ∈ ["hpc"] ∨ x ∈ ["al", "bob"]) ∧
      _execute_tag ["al", "bob"]
          (sampleC10.setattr "tags" (PyVal.list (r.map PyVal.str))) =
        Except.ok (sampleC10.setattr "tags" (PyVal.list (r.map PyVal.str)))) ∧
    _execute_tag ["bob", "al"] sampleC10 =
      _execute_tag ["al", "bob"] sampleC10 :=
  maintainers_tags_sorted_union sampleC10 ["al", "bob"] ["bob", "al"]
    ["zeb", "al"] ["hpc"] (List.Perm.swap "bob" "al" []) rfl rfl
